import Mathlib

/-!
Verification development for the Dummy Bank API (src/main.py, src/db.py).

The endpoints of src/main.py are embedded as pure Lean functions over an
explicit relational store (a `Store` of row lists, mirroring the SQLModel
tables of src/db.py).  Monetary `float` columns are modelled as `Rat`;
the concrete amounts exercised here are small integers, on which binary
floating point and rational arithmetic agree.  Store reads and writes
performed by an endpoint are reported as an explicit event trace.

`validate_customer_oid` first tries Python's `uuid.UUID(s)` constructor
and falls back to `re.match(r'^[A-Z0-9-]{8,36}$', s)`.  Both are modelled
character-for-character from CPython's semantics for ASCII inputs:
 * `uuid.UUID` removes every occurrence of `"urn:"` then `"uuid:"`,
   strips `'\x7b'`/`'\x7d'` from both ends, removes every `'-'`, requires
   exactly 32 remaining characters and that `int(hex, 16)` accepts them
   (optional surrounding whitespace, an optional sign, an optional
   `0x`/`0X` prefix, hex digits with single underscores between digits).
 * the regex anchor `$` (no flags) matches at the end of the string or
   just before a single trailing newline.
CPython additionally maps non-ASCII Unicode decimal digits and spaces
into this grammar; theorems that quantify over arbitrary strings
therefore carry an explicit all-ASCII hypothesis marking the modelled
input range.
-/

namespace DummyBank

/-- Error taxonomy of the HTTP layer: 400, 404 (with the identifier),
409 (with the identifier), 500. -/
inductive ApiError where
  | invalidArgument : ApiError
  | notFound : String → ApiError
  | conflict : String → ApiError
  | internal : ApiError
deriving DecidableEq

instance {ε α : Type} [DecidableEq ε] [DecidableEq α] : DecidableEq (Except ε α) :=
  fun a b =>
    match a, b with
    | .ok x, .ok y =>
      if h : x = y then isTrue (h ▸ rfl)
      else isFalse (fun he => h (Except.ok.injEq x y ▸ he :))
    | .ok _, .error _ => isFalse (fun he => Except.noConfusion he)
    | .error _, .ok _ => isFalse (fun he => Except.noConfusion he)
    | .error x, .error y =>
      if h : x = y then isTrue (h ▸ rfl)
      else isFalse (fun he => h (Except.error.injEq x y ▸ he :))

/-- A store access event: a SELECT (`read`) or a committed mutation (`write`). -/
inductive Ev where
  | read : Ev
  | write : Ev
deriving DecidableEq

/-- Whitespace accepted around the digits by CPython `int()` (the Unicode
whitespace property): TAB..CR, space, NEL, NBSP and the Unicode space
separators — but not FS..US (0x1C-0x1F). -/
def intSpace (c : Char) : Bool :=
  (9 ≤ c.toNat && c.toNat ≤ 13) || c.toNat == 32 ||
  c.toNat == 133 || c.toNat == 160 || c.toNat == 5760 ||
  (8192 ≤ c.toNat && c.toNat ≤ 8202) || c.toNat == 8232 || c.toNat == 8233 ||
  c.toNat == 8239 || c.toNat == 8287 || c.toNat == 12288

/-- Whitespace stripped by Python `str.strip()` (`str.isspace`): the
`int()` set plus the separator controls FS..US (0x1C-0x1F). -/
def strSpace (c : Char) : Bool :=
  intSpace c || (28 ≤ c.toNat && c.toNat ≤ 31)

/-- ASCII hexadecimal digit: `0`-`9`, `a`-`f`, `A`-`F`. -/
def isHexDigit (c : Char) : Bool :=
  (48 ≤ c.toNat && c.toNat ≤ 57) || (97 ≤ c.toNat && c.toNat ≤ 102) ||
  (65 ≤ c.toNat && c.toNat ≤ 70)

/-- Python `str.replace(pat, '')` for a pattern `p :: ps`: remove every
non-overlapping occurrence, scanning left to right.  Structural recursion
on a fuel counter so that the kernel can evaluate it; every step consumes
at least one character, so `fuel = l.length` (supplied by `removeAll`)
never runs out. -/
def removeAllAux (p : Char) (ps : List Char) : Nat → List Char → List Char
  | _, [] => []
  | 0, l => l
  | fuel + 1, c :: rest =>
    if c == p && ps.isPrefixOf rest then removeAllAux p ps fuel (rest.drop ps.length)
    else c :: removeAllAux p ps fuel rest

/-- Python `s.replace(pat, '')`. -/
def removeAll (pat : List Char) (l : List Char) : List Char :=
  match pat with
  | [] => l
  | p :: ps => removeAllAux p ps l.length l

/-- Python `s.strip(bad)` : drop `bad` characters from both ends. -/
def stripChars (bad : Char → Bool) (l : List Char) : List Char :=
  ((l.dropWhile bad).reverse.dropWhile bad).reverse

/-- Continuation of the digit run of `int(s, 16)`: after an accepted digit,
either another digit or a single underscore followed by a digit. -/
def hexTail : List Char → Bool
  | [] => true
  | [c] => !(c == '_') && isHexDigit c
  | c :: d :: r =>
    if c == '_' then isHexDigit d && hexTail r
    else isHexDigit c && hexTail (d :: r)

/-- A non-empty run of hex digits with single underscores between digits. -/
def hexDigitRun (l : List Char) : Bool :=
  match l with
  | [] => false
  | c :: r => isHexDigit c && hexTail r

/-- The part of `int(s, 16)` after the optional sign: an optional `0x`/`0X`
prefix (which may be followed by one underscore), then a digit run. -/
def afterSignOk (l : List Char) : Bool :=
  if l.head? == some '0' && (l.tail.head? == some 'x' || l.tail.head? == some 'X') then
    if l.tail.tail.head? == some '_' then hexDigitRun l.tail.tail.tail
    else hexDigitRun l.tail.tail
  else hexDigitRun l

/-- Whether CPython `int(s, 16)` accepts `s` (ASCII inputs): surrounding
whitespace, optional sign, optional base prefix, digit run. -/
def int16Ok (l : List Char) : Bool :=
  let t := stripChars intSpace l
  let t2 := if t.head? == some '+' || t.head? == some '-' then t.tail else t
  afterSignOk t2

/-- Whether `uuid.UUID(s)` succeeds (CPython): remove `"urn:"` then
`"uuid:"` everywhere, strip curly braces from both ends, remove all
hyphens, require exactly 32 characters accepted by `int(hex, 16)`.
The subsequent range check `0 <= int < 1 << 128` cannot fail: the sign
`-` has been removed with the hyphens and 32 characters bound the value
below `16^32`. -/
def parsesAsUUID (l : List Char) : Bool :=
  let h1 := removeAll ("urn:".data) l
  let h2 := removeAll ("uuid:".data) h1
  let h3 := stripChars (fun c => c.toNat == 123 || c.toNat == 125) h2
  let h4 := h3.filter (fun c => !(c == '-'))
  h4.length == 32 && int16Ok h4

/-- A character of the legacy class `[A-Z0-9-]`. -/
def isLegacyChar (c : Char) : Bool :=
  (65 ≤ c.toNat && c.toNat ≤ 90) || (48 ≤ c.toNat && c.toNat ≤ 57) || c == '-'

/-- The string is 8 to 36 characters, all from `[A-Z0-9-]`. -/
def legacyCore (l : List Char) : Bool :=
  8 ≤ l.length && l.length ≤ 36 && l.all isLegacyChar

/-- Python `re.match(r'^[A-Z0-9-]{8,36}$', s)` succeeds: either the whole
string is in the class, or everything before a single trailing newline is
(`$` also matches just before a newline that ends the string). -/
def legacyMatch (l : List Char) : Bool :=
  legacyCore l || (l.getLast? == some '\n' && legacyCore l.dropLast)

/-- `validate_customer_oid` of src/main.py: reject the empty string, accept
anything `uuid.UUID` parses, otherwise accept exactly the legacy pattern;
the accepted string is always returned unchanged. -/
def validate_customer_oid (s : String) : Except ApiError String :=
  if s.data.isEmpty then .error .invalidArgument
  else if parsesAsUUID s.data then .ok s
  else if legacyMatch s.data then .ok s
  else .error .invalidArgument

/-- Consume exactly `n` hex digits, returning the rest of the list. -/
def hexRun : Nat → List Char → Option (List Char)
  | 0, l => some l
  | _ + 1, [] => none
  | n + 1, c :: l => if isHexDigit c then hexRun n l else none

/-- The canonical hyphenated 8-4-4-4-12 textual UUID form (either case). -/
def isCanonicalUUID (l : List Char) : Bool :=
  match hexRun 8 l with
  | some ('-' :: r1) =>
    match hexRun 4 r1 with
    | some ('-' :: r2) =>
      match hexRun 4 r2 with
      | some ('-' :: r3) =>
        match hexRun 4 r3 with
        | some ('-' :: r4) => hexRun 12 r4 == some []
        | _ => false
      | _ => false
    | _ => false
  | _ => false

/-- Lowercase hexadecimal digit. -/
def isLowerHex (c : Char) : Bool :=
  (48 ≤ c.toNat && c.toNat ≤ 57) || (97 ≤ c.toNat && c.toNat ≤ 102)

/-- Shape of `str(uuid.uuid4())`: canonical form, lowercase, version
nibble `4` and variant nibble in `8`/`9`/`a`/`b`. -/
def isUuid4String (s : String) : Bool :=
  isCanonicalUUID s.data &&
  s.data.all (fun c => isLowerHex c || c == '-') &&
  (s.data.getD 14 ' ' == '4') &&
  (s.data.getD 19 ' ' == '8' || s.data.getD 19 ' ' == '9' ||
   s.data.getD 19 ' ' == 'a' || s.data.getD 19 ' ' == 'b')

/-! ### Data model (src/db.py)

Each SQLModel table becomes a structure; the store is the tuple of row
lists in insertion order.  Primary keys are `Option Nat` as in the
source (`Optional[int]`, DB-assigned). -/

structure User where
  id : Option Nat
  customer_oid : String
  name : String
deriving DecidableEq

structure Asset where
  id : Option Nat
  customer_oid : String
  asset_type : String
  symbol : String
  amount : Rat
deriving DecidableEq

structure Transaction where
  id : Option Nat
  customer_oid : String
  date : String
  type : String
  asset : Option String
  amount : Rat
deriving DecidableEq

structure Spending where
  id : Option Nat
  customer_oid : String
  category : String
  amount : Rat
  month : String
deriving DecidableEq

structure Institution where
  id : Option Nat
  name : String
  type : String
  contact_info : Option String
  internal_code : String
deriving DecidableEq

structure BankAccount where
  id : Option Nat
  customer_oid : String
  institution_id : Nat
  balance : Rat
  currency : String
  iban : Option String
deriving DecidableEq

structure DerivativeTransaction where
  id : Option Nat
  customer_oid : String
  type : String
  side : String
  asset : String
  strike_price : Rat
  premium : Rat
  expiration_date : String
  execution_date : String
  strategy : Option String
  status : String
  counterparty : Option String
deriving DecidableEq

/-- The relational store: one row list per table, in insertion order. -/
structure Store where
  users : List User
  assets : List Asset
  transactions : List Transaction
  spending : List Spending
  institutions : List Institution
  bank_accounts : List BankAccount
  derivative_transactions : List DerivativeTransaction
deriving DecidableEq

/-- The DB-enforced unique index on `User.customer_oid`. -/
def usersWF (store : Store) : Prop :=
  store.users.Pairwise (fun a b => a.customer_oid ≠ b.customer_oid)

/-! ### Endpoints (src/main.py)

Each endpoint returns its result together with the trace of store
accesses it performed (`Ev.read` per SELECT, `Ev.write` per committed
mutation), and — for the mutating endpoints — the store visible after
the request. -/

/-- A bank account as serialised by `get_user_portfolio`: the row plus
the resolved institution, `none` when the reference does not resolve. -/
structure AccountView where
  account : BankAccount
  institution : Option Institution
deriving DecidableEq

/-- The `portfolio_summary` block of `get_user_portfolio`. -/
structure PortfolioSummary where
  customer_oid : String
  total_cash_balance : Rat
  total_spending : Rat
  total_assets : Nat
  total_accounts : Nat
  total_transactions : Nat
  total_spending_categories : Nat
  total_derivative_positions : Nat
  has_assets : Bool
  has_accounts : Bool
  has_transactions : Bool
  has_spending : Bool
  has_derivatives : Bool
deriving DecidableEq

/-- The response of the user-portfolio endpoint. -/
structure Portfolio where
  customer_oid : String
  user_name : String
  user_customer_oid : String
  assets : List Asset
  bank_accounts : List AccountView
  transactions : List Transaction
  spending : List Spending
  derivative_transactions : List DerivativeTransaction
  summary : PortfolioSummary
deriving DecidableEq

/-- the user-portfolio GET endpoint (src/main.py, `get_user_portfolio`):
validate, look up the user, fetch the five dependent tables filtered by
`customer_oid`, batch-fetch the institutions referenced by the accounts
(the query is only issued when the reference set is non-empty), resolve
each account's institution through the resulting id-keyed dict (a dict
comprehension: the last fetched row with a given id wins), and compute
the summary aggregates. -/
def get_user_portfolio (store : Store) (oid0 : String) :
    Except ApiError Portfolio × List Ev :=
  match validate_customer_oid oid0 with
  | .error e => (.error e, [])
  | .ok customer_oid =>
    match (store.users.filter (fun u => u.customer_oid == customer_oid)).head? with
    | none => (.error (.notFound customer_oid), [.read])
    | some user =>
      let assets := store.assets.filter (fun a => a.customer_oid == customer_oid)
      let transactions := store.transactions.filter (fun t => t.customer_oid == customer_oid)
      let spending := store.spending.filter (fun s => s.customer_oid == customer_oid)
      let bank_accounts := store.bank_accounts.filter (fun b => b.customer_oid == customer_oid)
      let derivative_transactions :=
        store.derivative_transactions.filter (fun d => d.customer_oid == customer_oid)
      let institution_ids := bank_accounts.map (fun b => b.institution_id)
      let inst_rows := store.institutions.filter (fun i =>
        match i.id with
        | some v => institution_ids.contains v
        | none => false)
      let instOf := fun (iid : Nat) => (inst_rows.filter (fun i => i.id == some iid)).getLast?
      let evs := [Ev.read, .read, .read, .read, .read, .read] ++
        (if institution_ids.isEmpty then [] else [Ev.read])
      (.ok {
        customer_oid := customer_oid
        user_name := user.name
        user_customer_oid := user.customer_oid
        assets := assets
        bank_accounts := bank_accounts.map (fun b =>
          { account := b, institution := instOf b.institution_id })
        transactions := transactions
        spending := spending
        derivative_transactions := derivative_transactions
        summary := {
          customer_oid := customer_oid
          total_cash_balance := (bank_accounts.map (fun b => b.balance)).sum
          total_spending := (spending.map (fun s => s.amount)).sum
          total_assets := assets.length
          total_accounts := bank_accounts.length
          total_transactions := transactions.length
          total_spending_categories := ((spending.map (fun s => s.category)).dedup).length
          total_derivative_positions := derivative_transactions.length
          has_assets := decide (0 < assets.length)
          has_accounts := decide (0 < bank_accounts.length)
          has_transactions := decide (0 < transactions.length)
          has_spending := decide (0 < spending.length)
          has_derivatives := decide (0 < derivative_transactions.length) } },
       evs)

/-- The response of the customer-exists GET endpoint. -/
structure ExistsView where
  customer_oid : String
  exists_flag : Bool
  name : Option String
deriving DecidableEq

/-- the customer-exists GET endpoint (src/main.py,
`check_customer_exists`). -/
def check_customer_exists (store : Store) (oid0 : String) :
    Except ApiError ExistsView × List Ev :=
  match validate_customer_oid oid0 with
  | .error e => (.error e, [])
  | .ok customer_oid =>
    let u := (store.users.filter (fun u => u.customer_oid == customer_oid)).head?
    (.ok { customer_oid := customer_oid
           exists_flag := u.isSome
           name := u.map (fun x => x.name) }, [.read])

/-- The response of the register-customer POST endpoint. -/
structure UserRegistrationResponse where
  customer_oid : String
  name : String
  message : String
deriving DecidableEq

/-- Python `str.strip()` with no arguments. -/
def pyStrip (s : String) : String :=
  ⟨stripChars strSpace s.data⟩

/-- the register-customer POST endpoint (src/main.py, `register_customer`).
`gen` is the value `str(uuid.uuid4())` would return, supplied as an
explicit oracle for the random draw.  A missing or empty (falsy)
`customer_oid` selects the generated value; a provided one is validated.
The duplicate check runs before the name check; the name must have
trimmed length at least 2; the new row stores the trimmed name. -/
def register_customer (store : Store) (name : String) (oid? : Option String)
    (gen : String) :
    Except ApiError UserRegistrationResponse × Store × List Ev :=
  let chosen : Except ApiError String :=
    match oid? with
    | some o => if o == "" then .ok gen else validate_customer_oid o
    | none => .ok gen
  match chosen with
  | .error e => (.error e, store, [])
  | .ok customer_oid =>
    if ((store.users.filter (fun u => u.customer_oid == customer_oid)).head?).isSome then
      (.error (.conflict customer_oid), store, [.read])
    else if (pyStrip name).length < 2 then
      (.error .invalidArgument, store, [.read])
    else
      (.ok { customer_oid := customer_oid
             name := pyStrip name
             message := "Customer registered successfully" },
       { store with users := store.users ++ [{ id := none
                                               customer_oid := customer_oid
                                               name := pyStrip name }] },
       [.read, .write])

/-- the customer DELETE endpoint (src/main.py, `delete_customer`).
Steps 0-4 fetch a dependent table and stage the deletion of every
fetched row; step 5 stages the deletion of the fetched Identity row;
step 6 commits.  Session semantics: staged deletions reach the
committed store only at commit, and an exception at step `k`
(modelled by `failAt = some k`) triggers `session.rollback()`, which
discards all staged work and leaves the committed store unchanged. -/
def delete_customer (store : Store) (oid0 : String) (failAt : Option Nat) :
    Except ApiError (String × String) × Store × List Ev :=
  match validate_customer_oid oid0 with
  | .error e => (.error e, store, [])
  | .ok customer_oid =>
    match (store.users.filter (fun u => u.customer_oid == customer_oid)).head? with
    | none => (.error (.notFound customer_oid), store, [.read])
    | some _user =>
      if failAt == some 0 then (.error .internal, store, [.read]) else
      if failAt == some 1 then (.error .internal, store, [.read, .read]) else
      if failAt == some 2 then (.error .internal, store, [.read, .read, .read]) else
      if failAt == some 3 then (.error .internal, store, [.read, .read, .read, .read]) else
      if failAt == some 4 then
        (.error .internal, store, [.read, .read, .read, .read, .read]) else
      if failAt == some 5 then
        (.error .internal, store, [.read, .read, .read, .read, .read, .read]) else
      if failAt == some 6 then
        (.error .internal, store, [.read, .read, .read, .read, .read, .read]) else
      let committed : Store := {
        users := store.users.eraseP (fun u => u.customer_oid == customer_oid)
        assets := store.assets.filter (fun a => !(a.customer_oid == customer_oid))
        transactions := store.transactions.filter (fun t => !(t.customer_oid == customer_oid))
        spending := store.spending.filter (fun s => !(s.customer_oid == customer_oid))
        institutions := store.institutions
        bank_accounts := store.bank_accounts.filter (fun b => !(b.customer_oid == customer_oid))
        derivative_transactions :=
          store.derivative_transactions.filter (fun d => !(d.customer_oid == customer_oid)) }
      (.ok (customer_oid, "Customer and all associated data deleted successfully"),
       committed, [.read, .read, .read, .read, .read, .read, .write])

/-! ### Concrete fixtures used by witnesses and counterexamples -/

/-- The seed identifier of spec §8 item 7. -/
def c4oid : String := "11111111-1111-1111-1111-111111111111"

/-- The single existing institution of the C4 scenario (id 1). -/
def c4inst1 : Institution :=
  { id := some 1, name := "Global Bank", type := "bank"
    contact_info := some "contact@globalbank.com", internal_code := "GB001" }

/-- C4 scenario: one Identity, two cash accounts referencing institution
ids 1 and 2 (only 1 exists), one holding, two spending records of 100 and
50 in the same category. -/
def c4store : Store :=
  { users := [{ id := some 1, customer_oid := c4oid, name := "John Doe" }]
    assets := [{ id := some 1, customer_oid := c4oid, asset_type := "stock"
                 symbol := "AAPL", amount := 100 }]
    transactions := []
    spending := [{ id := some 1, customer_oid := c4oid, category := "groceries"
                   amount := 100, month := "2025-01" },
                 { id := some 2, customer_oid := c4oid, category := "groceries"
                   amount := 50, month := "2025-02" }]
    institutions := [c4inst1]
    bank_accounts := [{ id := some 1, customer_oid := c4oid, institution_id := 1
                        balance := 50000, currency := "USD"
                        iban := some "US1234567890123456" },
                      { id := some 2, customer_oid := c4oid, institution_id := 2
                        balance := 25000, currency := "EUR"
                        iban := some "DE9876543210987654" }]
    derivative_transactions := [] }

/-- C5 witness: a store holding one Identity and nothing else. -/
def c5store : Store :=
  { users := [{ id := some 1, customer_oid := "AAAAAAAA", name := "Alice" }]
    assets := [], transactions := [], spending := [], institutions := []
    bank_accounts := [], derivative_transactions := [] }

/-- A version-4 canonical UUID string, a possible `uuid.uuid4()` draw. -/
def gen4 : String := "12345678-1234-4123-8123-123456789abc"

/-- C6 counterexample: the generated UUID is already registered. -/
def c6store : Store :=
  { users := [{ id := some 1, customer_oid := gen4, name := "Bob" }]
    assets := [], transactions := [], spending := [], institutions := []
    bank_accounts := [], derivative_transactions := [] }

/-- C6 witness: an Identity with a legacy identifier. -/
def c6store2 : Store :=
  { users := [{ id := some 1, customer_oid := "BBBBBBBB", name := "Beth" }]
    assets := [], transactions := [], spending := [], institutions := []
    bank_accounts := [], derivative_transactions := [] }

/-- C7 witness: two customers with rows in every dependent table plus a
shared institution. -/
def c7store : Store :=
  { users := [{ id := some 1, customer_oid := "CUSTOMER-X1", name := "Xavier" },
              { id := some 2, customer_oid := "CUSTOMER-Y2", name := "Yara" }]
    assets := [{ id := some 1, customer_oid := "CUSTOMER-X1", asset_type := "stock"
                 symbol := "AAPL", amount := 3 },
               { id := some 2, customer_oid := "CUSTOMER-Y2", asset_type := "bond"
                 symbol := "US10Y", amount := 7 }]
    transactions := [{ id := some 1, customer_oid := "CUSTOMER-X1", date := "2025-01-15"
                       type := "buy", asset := some "AAPL", amount := -100 }]
    spending := [{ id := some 1, customer_oid := "CUSTOMER-X1", category := "groceries"
                   amount := 20, month := "2025-01" },
                 { id := some 2, customer_oid := "CUSTOMER-Y2", category := "travel"
                   amount := 30, month := "2025-01" }]
    institutions := [c4inst1]
    bank_accounts := [{ id := some 1, customer_oid := "CUSTOMER-X1", institution_id := 1
                        balance := 500, currency := "USD", iban := none }]
    derivative_transactions := [{ id := some 1, customer_oid := "CUSTOMER-X1"
                                  type := "option", side := "buy", asset := "AAPL"
                                  strike_price := 150, premium := 5
                                  expiration_date := "2025-12-15"
                                  execution_date := "2025-07-15"
                                  strategy := some "covered_call", status := "open"
                                  counterparty := some "BANK" }] }

/-- C9 counterexample: one registered customer; a fresh identifier is
then registered together with a too-short name. -/
def c9store : Store :=
  { users := [{ id := some 1, customer_oid := "CCCCCCCC", name := "Cleo" }]
    assets := [], transactions := [], spending := [], institutions := []
    bank_accounts := [], derivative_transactions := [] }

/-- An empty store. -/
def emptyStore : Store :=
  { users := [], assets := [], transactions := [], spending := []
    institutions := [], bank_accounts := [], derivative_transactions := [] }

/-! ### Helper lemmas -/

lemma ne_of_class {f : Char → Bool} {c d : Char} (h : f c = true) (hd : f d = false) :
    c ≠ d := by
  intro he
  rw [he, hd] at h
  exact Bool.false_ne_true h

lemma dropWhile_eq_self_of_all {p : Char → Bool} {l : List Char}
    (h : ∀ c ∈ l, p c = false) : l.dropWhile p = l := by
  cases l with
  | nil => rfl
  | cons a t =>
    rw [List.dropWhile_cons, h a (List.mem_cons_self a t)]
    simp

lemma stripChars_eq_self {bad : Char → Bool} {l : List Char}
    (h : ∀ c ∈ l, bad c = false) : stripChars bad l = l := by
  unfold stripChars
  rw [dropWhile_eq_self_of_all h,
    dropWhile_eq_self_of_all (fun c hc => h c (List.mem_reverse.mp hc)),
    List.reverse_reverse]

lemma removeAllAux_eq_self {p : Char} {ps : List Char} :
    ∀ (fuel : Nat) {l : List Char}, l.length ≤ fuel → (∀ c ∈ l, c ≠ p) →
    removeAllAux p ps fuel l = l := by
  intro fuel
  induction fuel with
  | zero =>
    intro l hlen _
    cases l with
    | nil => rw [removeAllAux]
    | cons c t => exact absurd hlen (by simp)
  | succ n ih =>
    intro l hlen h
    cases l with
    | nil => rw [removeAllAux]
    | cons c t =>
      have hc : (c == p) = false := beq_eq_false_iff_ne.mpr (h c (List.mem_cons_self c t))
      rw [removeAllAux, hc]
      simp only [Bool.false_and]
      rw [if_neg (by simp)]
      rw [ih (by simpa using Nat.le_of_succ_le_succ hlen)
        (fun x hx => h x (List.mem_cons_of_mem c hx))]

lemma hexTail_of_all {l : List Char} (h : ∀ c ∈ l, isHexDigit c = true) :
    hexTail l = true := by
  induction l with
  | nil => rfl
  | cons c t ih =>
    have hc : isHexDigit c = true := h c (List.mem_cons_self c t)
    have hne : (c == '_') = false :=
      beq_eq_false_iff_ne.mpr (ne_of_class hc (by decide))
    cases t with
    | nil => rw [hexTail, hne, hc]; rfl
    | cons d r =>
      rw [hexTail]
      rw [if_neg (by simp [hne])]
      rw [hc, ih (fun x hx => h x (List.mem_cons_of_mem c hx))]
      rfl

lemma hex_toNat_ranges {c : Char} (h : isHexDigit c = true) :
    (48 ≤ c.toNat ∧ c.toNat ≤ 57) ∨ (97 ≤ c.toNat ∧ c.toNat ≤ 102) ∨
    (65 ≤ c.toNat ∧ c.toNat ≤ 70) := by
  simp only [isHexDigit, Bool.or_eq_true, Bool.and_eq_true, decide_eq_true_eq] at h
  tauto

lemma hex_intSpace {c : Char} (h : isHexDigit c = true) : intSpace c = false := by
  apply Bool.eq_false_iff.mpr
  intro habs
  simp only [intSpace, Bool.or_eq_true, Bool.and_eq_true, decide_eq_true_eq,
    beq_iff_eq] at habs
  rcases hex_toNat_ranges h with h' | h' | h' <;> omega

lemma hex_notBrace {c : Char} (h : isHexDigit c = true) :
    (c.toNat == 123 || c.toNat == 125) = false := by
  apply Bool.eq_false_iff.mpr
  intro habs
  simp only [Bool.or_eq_true, beq_iff_eq] at habs
  rcases hex_toNat_ranges h with h' | h' | h' <;> omega

lemma int16Ok_of_all_hex {l : List Char} (h0 : l ≠ [])
    (h : ∀ c ∈ l, isHexDigit c = true) : int16Ok l = true := by
  unfold int16Ok
  rw [stripChars_eq_self (fun c hc => hex_intSpace (h c hc))]
  cases l with
  | nil => exact absurd rfl h0
  | cons x rest =>
    have hx : isHexDigit x = true := h x (List.mem_cons_self x rest)
    have hplus : ((x :: rest).head? == some '+') = false :=
      beq_eq_false_iff_ne.mpr (by
        simp only [List.head?_cons, ne_eq, Option.some.injEq]
        exact ne_of_class hx (by decide))
    have hminus : ((x :: rest).head? == some '-') = false :=
      beq_eq_false_iff_ne.mpr (by
        simp only [List.head?_cons, ne_eq, Option.some.injEq]
        exact ne_of_class hx (by decide))
    simp only [hplus, hminus, Bool.or_self, Bool.false_eq_true, if_false]
    have hrun : hexDigitRun (x :: rest) = true := by
      rw [hexDigitRun, hx, hexTail_of_all (fun c hc => h c (List.mem_cons_of_mem x hc))]
      rfl
    unfold afterSignOk
    cases rest with
    | nil =>
      have hcond : (([x] : List Char).head? == some '0' &&
          (([x] : List Char).tail.head? == some 'x' ||
           ([x] : List Char).tail.head? == some 'X')) = false := by
        simp only [List.tail_cons, List.head?_nil,
          show ((none == some 'x') : Bool) = false from rfl,
          show ((none == some 'X') : Bool) = false from rfl,
          Bool.or_self, Bool.and_false]
      simp only [hcond, Bool.false_eq_true, if_false]
      exact hrun
    | cons y rest2 =>
      have hy : isHexDigit y = true := h y (List.mem_cons_of_mem x (List.mem_cons_self y rest2))
      have hyx : ((y :: rest2).head? == some 'x') = false :=
        beq_eq_false_iff_ne.mpr (by
          simp only [List.head?_cons, ne_eq, Option.some.injEq]
          exact ne_of_class hy (by decide))
      have hyX : ((y :: rest2).head? == some 'X') = false :=
        beq_eq_false_iff_ne.mpr (by
          simp only [List.head?_cons, ne_eq, Option.some.injEq]
          exact ne_of_class hy (by decide))
      simp only [List.tail_cons, hyx, hyX, Bool.or_self, Bool.and_false,
        Bool.false_eq_true, if_false]
      exact hrun

lemma hexRun_eq_some {n : Nat} :
    ∀ {l r : List Char}, hexRun n l = some r →
    ∃ p, l = p ++ r ∧ p.length = n ∧ ∀ c ∈ p, isHexDigit c = true := by
  induction n with
  | zero =>
    intro l r h
    rw [hexRun] at h
    cases h
    exact ⟨[], rfl, rfl, by simp⟩
  | succ n ih =>
    intro l r h
    cases l with
    | nil => exact absurd h (by rw [hexRun]; exact Option.noConfusion)
    | cons c t =>
      rw [hexRun] at h
      by_cases hc : isHexDigit c = true
      · rw [if_pos hc] at h
        obtain ⟨p, hpt, hlen, hall⟩ := ih h
        refine ⟨c :: p, by rw [hpt]; rfl, by simp [hlen], ?_⟩
        intro x hx
        rcases List.mem_cons.mp hx with hx | hx
        · exact hx ▸ hc
        · exact hall x hx
      · rw [if_neg hc] at h
        exact Option.noConfusion h

/-- A canonical UUID string splits into five all-hex groups of lengths
8, 4, 4, 4, 12 joined by single hyphens. -/
lemma canonical_decomp {l : List Char} (h : isCanonicalUUID l = true) :
    ∃ a b c d e : List Char,
      l = a ++ '-' :: (b ++ '-' :: (c ++ '-' :: (d ++ '-' :: e))) ∧
      a.length = 8 ∧ b.length = 4 ∧ c.length = 4 ∧ d.length = 4 ∧ e.length = 12 ∧
      (∀ x ∈ a, isHexDigit x = true) ∧ (∀ x ∈ b, isHexDigit x = true) ∧
      (∀ x ∈ c, isHexDigit x = true) ∧ (∀ x ∈ d, isHexDigit x = true) ∧
      (∀ x ∈ e, isHexDigit x = true) := by
  unfold isCanonicalUUID at h
  split at h <;> try exact absurd h Bool.false_ne_true
  rename_i r1 h8
  split at h <;> try exact absurd h Bool.false_ne_true
  rename_i r2 h4b
  split at h <;> try exact absurd h Bool.false_ne_true
  rename_i r3 h4c
  split at h <;> try exact absurd h Bool.false_ne_true
  rename_i r4 h4d
  have h12 : hexRun 12 r4 = some [] := by
    have := (beq_iff_eq).mp h
    exact this
  obtain ⟨a, ha, ha8, haall⟩ := hexRun_eq_some h8
  obtain ⟨b, hb, hb4, hball⟩ := hexRun_eq_some h4b
  obtain ⟨c, hc, hc4, hcall⟩ := hexRun_eq_some h4c
  obtain ⟨d, hd, hd4, hdall⟩ := hexRun_eq_some h4d
  obtain ⟨e, he, he12, heall⟩ := hexRun_eq_some h12
  rw [List.append_nil] at he
  subst hd hc hb
  rw [he] at ha
  exact ⟨a, b, c, d, e, ha, ha8, hb4, hc4, hd4, he12, haall, hball, hcall, hdall, heall⟩

/-- Every character of a canonical UUID string is a hex digit or hyphen. -/
lemma canonical_chars {l : List Char} (h : isCanonicalUUID l = true) :
    ∀ x ∈ l, isHexDigit x = true ∨ x = '-' := by
  obtain ⟨a, b, c, d, e, hl, -, -, -, -, -, haall, hball, hcall, hdall, heall⟩ :=
    canonical_decomp h
  subst hl
  intro x hx
  simp only [List.mem_append, List.mem_cons] at hx
  rcases hx with hx | hx | hx | hx | hx | hx | hx | hx | hx
  · exact Or.inl (haall x hx)
  · exact Or.inr hx
  · exact Or.inl (hball x hx)
  · exact Or.inr hx
  · exact Or.inl (hcall x hx)
  · exact Or.inr hx
  · exact Or.inl (hdall x hx)
  · exact Or.inr hx
  · exact Or.inl (heall x hx)

/-- `uuid.UUID` accepts every canonical UUID string. -/
lemma canonical_parses {l : List Char} (h : isCanonicalUUID l = true) :
    parsesAsUUID l = true := by
  obtain ⟨a, b, c, d, e, hl, ha8, hb4, hc4, hd4, he12, haall, hball, hcall, hdall, heall⟩ :=
    canonical_decomp h
  have hchars := canonical_chars h
  subst hl
  set L := a ++ '-' :: (b ++ '-' :: (c ++ '-' :: (d ++ '-' :: e))) with hL
  have hne_u : ∀ x ∈ L, x ≠ 'u' := by
    intro x hx
    rcases hchars x hx with hx' | hx'
    · exact ne_of_class hx' (by decide)
    · rw [hx']; decide
  have step1 : removeAll ("urn:".data) L = L :=
    removeAllAux_eq_self L.length (Nat.le_refl _) hne_u
  have step2 : removeAll ("uuid:".data) L = L :=
    removeAllAux_eq_self L.length (Nat.le_refl _) hne_u
  have step3 : stripChars (fun c => c.toNat == 123 || c.toNat == 125) L = L :=
    stripChars_eq_self (fun x hx => by
      rcases hchars x hx with hx' | hx'
      · exact hex_notBrace hx'
      · rw [hx']; rfl)
  have hfa : ∀ (m : List Char), (∀ x ∈ m, isHexDigit x = true) →
      m.filter (fun x => !(x == '-')) = m := by
    intro m hm
    exact List.filter_eq_self.mpr (fun x hx => by
      have : x ≠ '-' := ne_of_class (hm x hx) (by decide)
      simpa using this)
  have hhyph : ∀ (m : List Char), List.filter (fun x => !(x == '-')) ('-' :: m) =
      List.filter (fun x => !(x == '-')) m := by
    intro m
    rw [List.filter_cons]
    simp
  have step4 : L.filter (fun x => !(x == '-')) = a ++ (b ++ (c ++ (d ++ e))) := by
    rw [hL, List.filter_append, hhyph, List.filter_append, hhyph, List.filter_append,
      hhyph, List.filter_append, hhyph, hfa a haall, hfa b hball, hfa c hcall,
      hfa d hdall, hfa e heall]
  have hallhex : ∀ x ∈ a ++ (b ++ (c ++ (d ++ e))), isHexDigit x = true := by
    intro x hx
    simp only [List.mem_append] at hx
    rcases hx with hx | hx | hx | hx | hx
    · exact haall x hx
    · exact hball x hx
    · exact hcall x hx
    · exact hdall x hx
    · exact heall x hx
  have hlen : (a ++ (b ++ (c ++ (d ++ e)))).length = 32 := by
    simp [ha8, hb4, hc4, hd4, he12]
  have hnil : a ++ (b ++ (c ++ (d ++ e))) ≠ [] := by
    intro hcontra
    rw [hcontra] at hlen
    exact absurd hlen (by decide)
  unfold parsesAsUUID
  simp only [step1, step2, step3, step4, hlen, int16Ok_of_all_hex hnil hallhex,
    Bool.and_true]
  rfl

/-- The validator accepts every canonical UUID string unchanged. -/
lemma canonical_validate {s : String} (h : isCanonicalUUID s.data = true) :
    validate_customer_oid s = .ok s := by
  obtain ⟨a, b, c, d, e, hl, ha8, -, -, -, -, -, -, -, -, -⟩ := canonical_decomp h
  have hnonempty : s.data.isEmpty = false := by
    rw [hl]
    cases a with
    | nil => exact absurd ha8 (by decide)
    | cons x t => rfl
  unfold validate_customer_oid
  rw [hnonempty, canonical_parses h]
  rfl

/-- Under the unique-index invariant, removing the first user row whose
key matches leaves no row with that key. -/
lemma filter_eraseP_eq_nil {l : List User} {oid : String}
    (hw : l.Pairwise (fun a b => a.customer_oid ≠ b.customer_oid)) :
    (l.eraseP (fun u => u.customer_oid == oid)).filter
      (fun u => u.customer_oid == oid) = [] := by
  induction l with
  | nil => rfl
  | cons a t ih =>
    rw [List.pairwise_cons] at hw
    obtain ⟨ha, ht⟩ := hw
    rw [List.eraseP_cons]
    by_cases hme : (a.customer_oid == oid) = true
    · rw [hme]
      simp only [cond_true]
      apply List.filter_eq_nil_iff.mpr
      intro b hb
      have hne : a.customer_oid ≠ b.customer_oid := ha b hb
      have haoid : a.customer_oid = oid := beq_iff_eq.mp hme
      intro hbo
      exact hne (by rw [haoid, beq_iff_eq.mp hbo])
    · have hme' : (a.customer_oid == oid) = false := Bool.eq_false_iff.mpr hme
      rw [hme']
      simp only [cond_false]
      rw [List.filter_cons, hme']
      simp only [Bool.false_eq_true, if_false]
      exact ih ht

/-! ### Claim theorems -/

/-- Claim C1, counterexample: the string `"ABCDEFGH\n"` does not parse as
a UUID, contains a character (the newline) outside the uppercase / digit /
hyphen class, has length 9 within the bound 8..36 — so the claim requires
rejection — yet the validator accepts it unchanged, because Python's `$`
anchor also matches just before a trailing newline. -/
theorem C1_counterexample :
    parsesAsUUID ("ABCDEFGH\n").data = false ∧
    (("ABCDEFGH\n").data.all isLegacyChar) = false ∧
    ("ABCDEFGH\n").data.length = 9 ∧
    validate_customer_oid "ABCDEFGH\n" = .ok "ABCDEFGH\n" := by
  refine ⟨by decide, by decide, by decide, by decide⟩

/-- Claim C1 (amended): over ASCII inputs that `uuid.UUID` does not parse,
the validator accepts unchanged exactly the strings of 8-36 characters
from `[A-Z0-9-]`, plus those same strings followed by one trailing
newline (the `$` anchor concession); everything else — length out of
bounds, a disallowed character elsewhere, lowercase letters, the empty
string — is rejected with a structured rejection. -/
theorem C1_legacy_class_amended (s : String)
    (hascii : ∀ c ∈ s.data, c.toNat ≤ 127)
    (hparse : parsesAsUUID s.data = false) :
    ((legacyCore s.data = true ∨
      (s.data.getLast? = some '\n' ∧ legacyCore s.data.dropLast = true)) →
        validate_customer_oid s = .ok s) ∧
    ((legacyCore s.data = false ∧
      (s.data.getLast? = some '\n' → legacyCore s.data.dropLast = false)) →
        validate_customer_oid s = .error .invalidArgument) := by
  constructor
  · intro hacc
    have hne : s.data.isEmpty = false := by
      rcases hacc with h1 | ⟨h1, _⟩
      · simp only [legacyCore, Bool.and_eq_true, decide_eq_true_eq] at h1
        cases hl : s.data with
        | nil => rw [hl] at h1; simp at h1
        | cons x t => rfl
      · cases hl : s.data with
        | nil => rw [hl] at h1; simp at h1
        | cons x t => rfl
    have hm : legacyMatch s.data = true := by
      unfold legacyMatch
      rcases hacc with h1 | ⟨h1, h2⟩
      · rw [h1]; rfl
      · rw [h2, beq_iff_eq.mpr h1]
        simp
    unfold validate_customer_oid
    rw [hne, hparse, hm]
    rfl
  · intro ⟨h1, h2⟩
    by_cases hemp : s.data.isEmpty = true
    · unfold validate_customer_oid
      rw [hemp]
      rfl
    · have hne : s.data.isEmpty = false := Bool.eq_false_iff.mpr hemp
      have hm : legacyMatch s.data = false := by
        unfold legacyMatch
        rw [h1]
        by_cases hl : s.data.getLast? = some '\n'
        · rw [beq_iff_eq.mpr hl, h2 hl]
          rfl
        · rw [beq_eq_false_iff_ne.mpr hl]
          rfl
      unfold validate_customer_oid
      rw [hne, hparse, hm]
      rfl

/-- Witness for C1's amended theorem at concrete inputs: a legacy
identifier is accepted and a lowercase one is rejected. -/
theorem C1_legacy_class_amended_witness :
    validate_customer_oid "ABC-1234" = .ok "ABC-1234" ∧
    validate_customer_oid "abcdefgh" = .error .invalidArgument :=
  ⟨(C1_legacy_class_amended "ABC-1234" (by decide) (by decide)).1 (Or.inl (by decide)),
   (C1_legacy_class_amended "abcdefgh" (by decide) (by decide)).2 ⟨by decide, by decide⟩⟩

/-- Claim C2: every string in the canonical hyphenated 8-4-4-4-12 UUID
form, of either letter case, is accepted by the validator and returned
exactly as given, never normalised. -/
theorem C2_canonical_accepted_unchanged (s : String)
    (h : isCanonicalUUID s.data = true) :
    validate_customer_oid s = .ok s :=
  canonical_validate h

/-- Witness for C2 at a mixed-case canonical UUID string. -/
theorem C2_canonical_accepted_unchanged_witness :
    isCanonicalUUID ("550E8400-e29b-41d4-A716-446655440000").data = true ∧
    validate_customer_oid "550E8400-e29b-41d4-A716-446655440000" =
      .ok "550E8400-e29b-41d4-A716-446655440000" :=
  ⟨by decide, C2_canonical_accepted_unchanged _ (by decide)⟩

/-- Claim C10: strings that are neither canonical hyphenated UUIDs nor
8-36 characters of `[A-Z0-9-]` can still be accepted unchanged — a
32-hex-digit string with no hyphens (even all-lowercase) and a
`urn:uuid:`-prefixed form — because acceptance is decided by the general
UUID parser. -/
theorem C10_lenient_uuid_acceptance :
    (isCanonicalUUID ("0123456789abcdef0123456789abcdef").data = false ∧
     ("0123456789abcdef0123456789abcdef").data.all isLegacyChar = false ∧
     validate_customer_oid "0123456789abcdef0123456789abcdef" =
       .ok "0123456789abcdef0123456789abcdef") ∧
    (isCanonicalUUID ("urn:uuid:12345678-1234-4123-8123-123456789abc").data = false ∧
     ("urn:uuid:12345678-1234-4123-8123-123456789abc").data.all isLegacyChar = false ∧
     validate_customer_oid "urn:uuid:12345678-1234-4123-8123-123456789abc" =
       .ok "urn:uuid:12345678-1234-4123-8123-123456789abc") := by
  refine ⟨⟨by decide, by decide, by decide⟩, ⟨by decide, by decide, by decide⟩⟩

/-- Claim C3: for every store, aggregating a validated identifier with no
matching Identity fails with NotFound carrying the identifier (after the
single user lookup), and aggregating an identifier that fails validation
fails with InvalidArgument before any store access (empty trace). -/
theorem C3_portfolio_error_paths (store : Store) (oid : String) :
    (validate_customer_oid oid = .ok oid →
      store.users.filter (fun u => u.customer_oid == oid) = [] →
      get_user_portfolio store oid = (.error (.notFound oid), [.read])) ∧
    (validate_customer_oid oid = .error .invalidArgument →
      get_user_portfolio store oid = (.error .invalidArgument, [])) := by
  constructor
  · intro hv hu
    simp only [get_user_portfolio, hv, hu, List.head?_nil]
  · intro hv
    simp only [get_user_portfolio, hv]

/-- Witness for C3: an unknown legacy identifier on the empty store gives
NotFound after one read; a malformed identifier gives InvalidArgument
with no store access. -/
theorem C3_portfolio_error_paths_witness :
    get_user_portfolio emptyStore "AAAAAAAA" = (.error (.notFound "AAAAAAAA"), [.read]) ∧
    get_user_portfolio emptyStore "ab" = (.error .invalidArgument, []) :=
  ⟨(C3_portfolio_error_paths emptyStore "AAAAAAAA").1 (by decide) rfl,
   (C3_portfolio_error_paths emptyStore "ab").2 (by decide)⟩

/-- Claim C4: on the seeded store of spec §8 item 7, aggregation succeeds
and reports total_spending = 150, one distinct spending category, the
institution-1 account with its resolved Institution record, and the
institution-2 account with a null institution. -/
theorem C4_seeded_aggregation :
    ((get_user_portfolio c4store c4oid).1.toOption.map (fun p =>
      (p.summary.total_spending, p.summary.total_spending_categories,
       p.bank_accounts.map (fun a => a.institution)))) =
      some (150, 1, [some c4inst1, none]) := by
  have hv : validate_customer_oid c4oid = Except.ok c4oid := by decide
  simp [get_user_portfolio, hv, c4store, c4inst1, List.dedup]
  exact ⟨_, rfl, by norm_num, rfl, rfl⟩

/-- Claim C5: aggregating a customer whose Identity exists but who has no
rows in any of the five dependent tables succeeds and returns all five
has-data flags false, all counts zero, total cash 0 and total spending 0. -/
theorem C5_empty_related_records (store : Store) (oid : String) (u : User)
    (hv : validate_customer_oid oid = .ok oid)
    (hu : (store.users.filter (fun u => u.customer_oid == oid)).head? = some u)
    (ha : store.assets.filter (fun a => a.customer_oid == oid) = [])
    (ht : store.transactions.filter (fun t => t.customer_oid == oid) = [])
    (hs : store.spending.filter (fun s => s.customer_oid == oid) = [])
    (hb : store.bank_accounts.filter (fun b => b.customer_oid == oid) = [])
    (hd : store.derivative_transactions.filter (fun d => d.customer_oid == oid) = []) :
    (get_user_portfolio store oid).1 = .ok {
      customer_oid := oid
      user_name := u.name
      user_customer_oid := u.customer_oid
      assets := []
      bank_accounts := []
      transactions := []
      spending := []
      derivative_transactions := []
      summary := {
        customer_oid := oid
        total_cash_balance := 0
        total_spending := 0
        total_assets := 0
        total_accounts := 0
        total_transactions := 0
        total_spending_categories := 0
        total_derivative_positions := 0
        has_assets := false
        has_accounts := false
        has_transactions := false
        has_spending := false
        has_derivatives := false } } := by
  simp only [get_user_portfolio, hv, hu, ha, ht, hs, hb, hd]
  simp

/-- Witness for C5 at a store that holds exactly one Identity. -/
theorem C5_empty_related_records_witness :
    (get_user_portfolio c5store "AAAAAAAA").1 = .ok {
      customer_oid := "AAAAAAAA"
      user_name := "Alice"
      user_customer_oid := "AAAAAAAA"
      assets := []
      bank_accounts := []
      transactions := []
      spending := []
      derivative_transactions := []
      summary := {
        customer_oid := "AAAAAAAA"
        total_cash_balance := 0
        total_spending := 0
        total_assets := 0
        total_accounts := 0
        total_transactions := 0
        total_spending_categories := 0
        total_derivative_positions := 0
        has_assets := false
        has_accounts := false
        has_transactions := false
        has_spending := false
        has_derivatives := false } } :=
  C5_empty_related_records c5store "AAAAAAAA"
    { id := some 1, customer_oid := "AAAAAAAA", name := "Alice" }
    (by decide) (by decide) rfl rfl rfl rfl rfl

/-- Claim C6, counterexample: the code never re-draws the generated UUID,
so a draw that collides with a stored identifier (possible, since
`uuid.uuid4()` is random) makes registration fail with Conflict instead
of producing an identifier distinct from every stored one. -/
theorem C6_counterexample :
    isUuid4String gen4 = true ∧
    (c6store.users.map (fun u => u.customer_oid)).contains gen4 = true ∧
    register_customer c6store "Bob" none gen4 =
      (.error (.conflict gen4), c6store, [.read]) := by
  refine ⟨by decide, by decide, by decide⟩

/-- Claim C6 (amended): with an omitted identifier, registration uses the
generated version-4 UUID, which the validator accepts; whenever that UUID
is not already stored (and the name is valid) registration succeeds and
appends exactly one Identity row; and registering any identifier that
already has an Identity fails with Conflict and leaves the store
unchanged (never overwrites). -/
theorem C6_registration_amended (store : Store) (name gen : String)
    (hgen : isUuid4String gen = true) :
    validate_customer_oid gen = .ok gen ∧
    (store.users.filter (fun u => u.customer_oid == gen) = [] →
      2 ≤ (pyStrip name).length →
      register_customer store name none gen =
        (.ok { customer_oid := gen, name := pyStrip name
               message := "Customer registered successfully" },
         { store with users := store.users ++
             [{ id := none, customer_oid := gen, name := pyStrip name }] },
         [.read, .write])) ∧
    (∀ oid : String, oid ≠ "" → validate_customer_oid oid = .ok oid →
      store.users.filter (fun u => u.customer_oid == oid) ≠ [] →
      register_customer store name (some oid) gen =
        (.error (.conflict oid), store, [.read])) := by
  have hcanon : isCanonicalUUID gen.data = true := by
    simp only [isUuid4String, Bool.and_eq_true] at hgen
    exact hgen.1.1.1
  refine ⟨canonical_validate hcanon, ?_, ?_⟩
  · intro hfresh hname
    simp only [register_customer, hfresh, List.head?_nil, Option.isSome_none,
      Bool.false_eq_true, if_false]
    rw [if_neg (Nat.not_lt.mpr hname)]
  · intro oid hne hv hdup
    have hne' : (oid == "") = false := beq_eq_false_iff_ne.mpr hne
    cases hf : store.users.filter (fun u => u.customer_oid == oid) with
    | nil => exact absurd hf hdup
    | cons w ws =>
      simp only [register_customer, hne', Bool.false_eq_true, if_false, hv, hf,
        List.head?_cons, Option.isSome_some, if_true]

/-- Witness for C6's amended theorem: a fresh uuid4 draw registers
successfully on a store holding one legacy customer, and re-registering
that customer's identifier yields Conflict with the store unchanged. -/
theorem C6_registration_amended_witness :
    validate_customer_oid gen4 = .ok gen4 ∧
    register_customer c6store2 "Bob" none gen4 =
      (.ok { customer_oid := gen4, name := "Bob"
             message := "Customer registered successfully" },
       { c6store2 with users := c6store2.users ++
           [{ id := none, customer_oid := gen4, name := "Bob" }] },
       [.read, .write]) ∧
    register_customer c6store2 "Bob" (some "BBBBBBBB") gen4 =
      (.error (.conflict "BBBBBBBB"), c6store2, [.read]) := by
  obtain ⟨h1, h2, h3⟩ := C6_registration_amended c6store2 "Bob" gen4 (by decide)
  exact ⟨h1, h2 (by decide) (by decide),
    h3 "BBBBBBBB" (by decide) (by decide) (by decide)⟩

/-- Claim C7: deleting an existing customer removes every matching row of
the five dependent tables and the Identity row, leaves Institutions
untouched, and a subsequent existence check reports `exists = false`. -/
theorem C7_delete_removes_customer (store : Store) (oid : String) (u : User)
    (hw : usersWF store)
    (hv : validate_customer_oid oid = .ok oid)
    (hu : (store.users.filter (fun x => x.customer_oid == oid)).head? = some u) :
    (delete_customer store oid none).1 =
      .ok (oid, "Customer and all associated data deleted successfully") ∧
    (delete_customer store oid none).2.1.assets =
      store.assets.filter (fun a => !(a.customer_oid == oid)) ∧
    (delete_customer store oid none).2.1.transactions =
      store.transactions.filter (fun t => !(t.customer_oid == oid)) ∧
    (delete_customer store oid none).2.1.spending =
      store.spending.filter (fun s => !(s.customer_oid == oid)) ∧
    (delete_customer store oid none).2.1.bank_accounts =
      store.bank_accounts.filter (fun b => !(b.customer_oid == oid)) ∧
    (delete_customer store oid none).2.1.derivative_transactions =
      store.derivative_transactions.filter (fun d => !(d.customer_oid == oid)) ∧
    (delete_customer store oid none).2.1.users =
      store.users.eraseP (fun x => x.customer_oid == oid) ∧
    (delete_customer store oid none).2.1.users.filter
      (fun x => x.customer_oid == oid) = [] ∧
    (delete_customer store oid none).2.1.institutions = store.institutions ∧
    (check_customer_exists (delete_customer store oid none).2.1 oid).1 =
      .ok { customer_oid := oid, exists_flag := false, name := none } := by
  have hdel : delete_customer store oid none =
      (.ok (oid, "Customer and all associated data deleted successfully"),
       { users := store.users.eraseP (fun x => x.customer_oid == oid)
         assets := store.assets.filter (fun a => !(a.customer_oid == oid))
         transactions := store.transactions.filter (fun t => !(t.customer_oid == oid))
         spending := store.spending.filter (fun s => !(s.customer_oid == oid))
         institutions := store.institutions
         bank_accounts := store.bank_accounts.filter (fun b => !(b.customer_oid == oid))
         derivative_transactions :=
           store.derivative_transactions.filter (fun d => !(d.customer_oid == oid)) },
       [.read, .read, .read, .read, .read, .read, .write]) := by
    simp only [delete_customer, hv, hu]
    rfl
  have hempty : (store.users.eraseP (fun x => x.customer_oid == oid)).filter
      (fun x => x.customer_oid == oid) = [] := filter_eraseP_eq_nil hw
  rw [hdel]
  refine ⟨rfl, rfl, rfl, rfl, rfl, rfl, rfl, hempty, rfl, ?_⟩
  simp only [check_customer_exists, hv, hempty, List.head?_nil]
  rfl

/-- Witness for C7 on a two-customer store: the other customer's rows and
the institution survive, the deleted customer's rows are gone, and the
existence check reports false. -/
theorem C7_delete_removes_customer_witness :
    (delete_customer c7store "CUSTOMER-X1" none).1 =
      .ok ("CUSTOMER-X1", "Customer and all associated data deleted successfully") ∧
    (delete_customer c7store "CUSTOMER-X1" none).2.1.users.filter
      (fun x => x.customer_oid == "CUSTOMER-X1") = [] ∧
    (delete_customer c7store "CUSTOMER-X1" none).2.1.institutions =
      c7store.institutions ∧
    (check_customer_exists (delete_customer c7store "CUSTOMER-X1" none).2.1
      "CUSTOMER-X1").1 =
      .ok { customer_oid := "CUSTOMER-X1", exists_flag := false, name := none } := by
  obtain ⟨h1, -, -, -, -, -, -, hfe, hinst, hex⟩ :=
    C7_delete_removes_customer c7store "CUSTOMER-X1"
      { id := some 1, customer_oid := "CUSTOMER-X1", name := "Xavier" }
      (by simp [usersWF, c7store, List.pairwise_cons])
      (by decide) (by decide)
  exact ⟨h1, hfe, hinst, hex⟩

/-- Claim C8: if any deletion step (the five dependent-table passes, the
Identity deletion, or the commit) raises, the whole operation fails and
the store visible afterwards equals the store before — nothing partial is
committed. -/
theorem C8_delete_all_or_nothing (store : Store) (oid : String) (k : Nat)
    (hk : k ≤ 6) :
    (∃ e, (delete_customer store oid (some k)).1 = .error e) ∧
    (delete_customer store oid (some k)).2.1 = store := by
  cases hv : validate_customer_oid oid with
  | error e =>
    exact ⟨⟨e, by simp only [delete_customer, hv]⟩, by simp only [delete_customer, hv]⟩
  | ok o =>
    cases hu : (store.users.filter (fun u => u.customer_oid == o)).head? with
    | none =>
      exact ⟨⟨.notFound o, by simp only [delete_customer, hv, hu]⟩,
        by simp only [delete_customer, hv, hu]⟩
    | some u =>
      constructor
      · exact ⟨.internal, by
          simp only [delete_customer, hv, hu]
          interval_cases k <;> rfl⟩
      · simp only [delete_customer, hv, hu]
        interval_cases k <;> rfl

/-- Witness for C8: a commit-step failure while deleting an existing
customer reports an internal error and leaves the store as it was. -/
theorem C8_delete_all_or_nothing_witness :
    (delete_customer c5store "AAAAAAAA" (some 6)).1 = .error .internal ∧
    (delete_customer c5store "AAAAAAAA" (some 6)).2.1 = c5store :=
  ⟨by decide, (C8_delete_all_or_nothing c5store "AAAAAAAA" 6 (by decide)).2⟩

/-- Claim C9, counterexample: registering a well-formed fresh identifier
with a one-character name does return InvalidArgument, but only after the
duplicate-identifier SELECT — the trace contains a read, so the
validation failure does reach the store layer. -/
theorem C9_counterexample :
    validate_customer_oid "DDDDDDDD" = .ok "DDDDDDDD" ∧
    register_customer c9store "A" (some "DDDDDDDD") gen4 =
      (.error .invalidArgument, c9store, [.read]) ∧
    ([Ev.read] ≠ ([] : List Ev)) := by
  refine ⟨by decide, by decide, by decide⟩

/-- Claim C9 (amended): a malformed identifier yields InvalidArgument
with no store access in aggregation, existence check, and deletion, and
likewise in registration for every malformed identifier except the empty
string.  Registration deviates twice: a provided empty string — though
malformed, it is rejected by the validator — is treated exactly like an
omitted identifier, replaced by the generated UUID, and the request
proceeds to the store (the duplicate-check read is issued and, with a
valid fresh resolution, a row is written); and the name is validated
only after the duplicate-identifier lookup, so a too-short name yields
Conflict when the resolved identifier is already registered and
InvalidArgument otherwise, in both cases after exactly one read and with
nothing written. -/
theorem C9_validation_before_store_amended (store : Store)
    (oid name gen : String) :
    (validate_customer_oid oid = .error .invalidArgument →
      get_user_portfolio store oid = (.error .invalidArgument, []) ∧
      check_customer_exists store oid = (.error .invalidArgument, []) ∧
      (∀ failAt, delete_customer store oid failAt =
        (.error .invalidArgument, store, [])) ∧
      (oid ≠ "" → register_customer store name (some oid) gen =
        (.error .invalidArgument, store, []))) ∧
    (validate_customer_oid "" = .error .invalidArgument ∧
     register_customer store name (some "") gen =
       register_customer store name none gen ∧
     (store.users.filter (fun u => u.customer_oid == gen) = [] →
      2 ≤ (pyStrip name).length →
      register_customer store name (some "") gen =
        (.ok { customer_oid := gen, name := pyStrip name
               message := "Customer registered successfully" },
         { store with users := store.users ++
             [{ id := none, customer_oid := gen, name := pyStrip name }] },
         [.read, .write]))) ∧
    (validate_customer_oid oid = .ok oid →
      (store.users.filter (fun u => u.customer_oid == oid) = [] →
        (pyStrip name).length < 2 →
        register_customer store name (some oid) gen =
          (.error .invalidArgument, store, [.read])) ∧
      (store.users.filter (fun u => u.customer_oid == oid) ≠ [] →
        register_customer store name (some oid) gen =
          (.error (.conflict oid), store, [.read]))) := by
  refine ⟨?_, ⟨by decide, rfl, ?_⟩, ?_⟩
  · intro hv
    refine ⟨?_, ?_, ?_, ?_⟩
    · simp only [get_user_portfolio, hv]
    · simp only [check_customer_exists, hv]
    · intro failAt
      simp only [delete_customer, hv]
    · intro hne
      have hne' : (oid == "") = false := beq_eq_false_iff_ne.mpr hne
      simp only [register_customer, hne', Bool.false_eq_true, if_false, hv]
  · intro hfresh hname
    simp only [register_customer, beq_self_eq_true, if_true, hfresh,
      List.head?_nil, Option.isSome_none, Bool.false_eq_true, if_false]
    rw [if_neg (Nat.not_lt.mpr hname)]
  · intro hv
    have hne : oid ≠ "" := by
      intro he
      rw [he] at hv
      exact absurd hv (by decide)
    have hne' : (oid == "") = false := beq_eq_false_iff_ne.mpr hne
    constructor
    · intro hfresh hname
      simp only [register_customer, hne', Bool.false_eq_true, if_false, hv, hfresh,
        List.head?_nil, Option.isSome_none, hname, if_true]
    · intro hdup
      cases hf : store.users.filter (fun u => u.customer_oid == oid) with
      | nil => exact absurd hf hdup
      | cons w ws =>
        simp only [register_customer, hne', Bool.false_eq_true, if_false, hv, hf,
          List.head?_cons, Option.isSome_some, if_true]

/-- Witness for C9's amended theorem: the malformed identifier `"ab"`
across all four operations with empty traces; a provided empty string
that registers a generated UUID with a read and a write; a short-name
registration with a fresh identifier giving InvalidArgument after one
read; and a short-name registration with a duplicate identifier giving
Conflict after one read. -/
theorem C9_validation_before_store_amended_witness :
    get_user_portfolio emptyStore "ab" = (.error .invalidArgument, []) ∧
    check_customer_exists emptyStore "ab" = (.error .invalidArgument, []) ∧
    delete_customer emptyStore "ab" none = (.error .invalidArgument, emptyStore, []) ∧
    register_customer emptyStore "Bob" (some "ab") gen4 =
      (.error .invalidArgument, emptyStore, []) ∧
    register_customer emptyStore "Bob" (some "") gen4 =
      (.ok { customer_oid := gen4, name := "Bob"
             message := "Customer registered successfully" },
       { emptyStore with users := emptyStore.users ++
           [{ id := none, customer_oid := gen4, name := "Bob" }] },
       [.read, .write]) ∧
    register_customer emptyStore "A" (some "DDDDDDDD") gen4 =
      (.error .invalidArgument, emptyStore, [.read]) ∧
    register_customer c9store "A" (some "CCCCCCCC") gen4 =
      (.error (.conflict "CCCCCCCC"), c9store, [.read]) := by
  obtain ⟨hbad, hempty, -⟩ :=
    C9_validation_before_store_amended emptyStore "ab" "Bob" gen4
  obtain ⟨h1, h2, h3, h4⟩ := hbad (by decide)
  obtain ⟨-, -, hwrite⟩ := hempty
  obtain ⟨-, -, hok⟩ :=
    C9_validation_before_store_amended emptyStore "DDDDDDDD" "A" gen4
  obtain ⟨hlate, -⟩ := hok (by decide)
  obtain ⟨-, -, hok2⟩ :=
    C9_validation_before_store_amended c9store "CCCCCCCC" "A" gen4
  obtain ⟨-, hdup⟩ := hok2 (by decide)
  exact ⟨h1, h2, h3 none, h4 (by decide), hwrite rfl (by decide),
    hlate rfl (by decide), hdup (by decide)⟩

end DummyBank
